import Mathlib

/-!
GFX.DASH: Discord login and panel-account reconciliation.

A shallow embedding of `src/app/auth.js`.

* JavaScript values are a small inductive type `JsVal` with the language's
  truthiness test, because the source branches on `if (userId)` and `a || b`.
* The key-value store `db` is a total map from keys to values (`undefined`
  for an absent key).  `db.get` / `db.set` may reject; a rejected call leaves
  the store as it was and throws a store error, which carries no `response`
  property.
* Awaited effects (`db.get`, `db.set`, `randomstring.generate`, `axios.post`,
  `logError`, `res.redirect`, ...) are recorded, in program order, in a trace
  of `Event`s; their outcomes are supplied by an `Env` value.
* `async` functions are functions `St → Except JsError α × St`: they either
  return or throw, and thread the store and the trace.
-/

namespace GfxDash

/-! ## Values, errors, events -/

/-- JavaScript values that reach the store and the API payloads: the JSON
scalars, `undefined`, and the user record object written by
`handleHydraAccount`. -/
inductive JsVal where
  | undefined
  | null
  | bool (b : Bool)
  | num (n : Int)
  | str (s : String)
  | userRecord (id email username : String) (hydraId : JsVal)
  deriving DecidableEq, Repr

/-- JavaScript truthiness (`ToBoolean`): `undefined`, `null`, `false`, `0`
and the empty string are falsy, everything else (objects included) is truthy. -/
def JsVal.truthy : JsVal → Bool
  | .undefined => false
  | .null => false
  | .bool b => b
  | .num n => decide (n ≠ 0)
  | .str s => decide (s ≠ "")
  | .userRecord _ _ _ _ => true

/-- The body of an HTTP response as far as `.data.userId` is concerned:
either `null`/`undefined` (reading a property throws a `TypeError`) or any
other value, of which only the `userId` property is read (`undefined` when the
property is missing). -/
inductive Body where
  | nullish
  | obj (userId : JsVal)
  deriving DecidableEq, Repr

/-- The `response` object of an axios error. -/
structure HttpResponse where
  status : Nat
  data : Body
  deriving DecidableEq, Repr

/-- Thrown values.  `store` is a rejection of `db.get`/`db.set`, `error` is
`new Error(msg)`, `typeError` is raised by the runtime when a property of
`null`/`undefined` is read, `axios` is a rejection of `axios.post` (with a
`response` when the server answered, without one on a network failure). -/
inductive JsError where
  | store (msg : String)
  | error (msg : String)
  | typeError (msg : String)
  | axios (msg : String) (response : Option HttpResponse)
  deriving DecidableEq, Repr

/-- The JavaScript expression `error.response?.status`. -/
def JsError.responseStatus : JsError → Option Nat
  | .axios _ (some r) => some r.status
  | _ => none

/-- The request sent by `axios.post`: URL, JSON body and the `x-api-key`
header. -/
structure PostRequest where
  url : String
  username : String
  email : String
  password : String
  userId : String
  apiKey : Option String
  deriving DecidableEq, Repr

/-- Observable effects, in program order. -/
inductive Event where
  | dbGet (key : String)
  | dbSet (key : String) (value : JsVal)
  | generate (length : Int) (charset : String)
  | post (req : PostRequest)
  | logError (message : String) (error : JsError)
  | redirect (url : String)
  | authenticate (strategy : String)
  | done (err : Option JsError) (value : JsVal)
  | logoutCleared
  | destroyCalled
  | destroyCompleted
  deriving DecidableEq, Repr

/-- Is the event a create-account request? -/
def Event.isPost : Event → Bool
  | .post _ => true
  | _ => false

/-- Is the event a store access? -/
def Event.isStoreAccess : Event → Bool
  | .dbGet _ => true
  | .dbSet _ _ => true
  | _ => false

/-- Is the event a redirect? -/
def Event.isRedirect : Event → Bool
  | .redirect _ => true
  | _ => false

/-- Is the event a call of `logError`? -/
def Event.isLogError : Event → Bool
  | .logError _ _ => true
  | _ => false

/-! ## Store, environment, configuration -/

/-- The key-value store: every key has a value, `undefined` when absent. -/
abbrev Store := String → JsVal

/-- The store with no entry. -/
def Store.empty : Store := fun _ => .undefined

/-- The store after a successful `db.set(key, value)`. -/
def Store.set (s : Store) (key : String) (value : JsVal) : Store :=
  fun k => if k = key then value else s k

/-- Outcome of `axios.post`: resolved with a response body (2xx), or rejected
with an axios error. -/
inductive ApiOutcome where
  | resolved (data : Body)
  | rejected (msg : String) (response : Option HttpResponse)
  deriving DecidableEq, Repr

/-- Behaviour of the external collaborators during one handler run:
whether `db.get(key)` / `db.set(key, value)` reject (with which message),
what `randomstring.generate` returns for a length and charset, and how the
create-account API answers a request. -/
structure Env where
  dbGetFail : String → Option String
  dbSetFail : String → JsVal → Option String
  generate : Int → String → String
  post : PostRequest → ApiOutcome

/-- The environment variables read by the module (`process.env`). -/
structure ProcessEnv where
  PANEL_URL : Option String
  PANEL_KEY : Option String
  PASSWORD_LENGTH : Option String

/-- Threaded state: the store and the trace of effects so far. -/
structure St where
  store : Store
  trace : List Event

/-- An `async` function body: returns or throws, and updates the state. -/
def M (α : Type) : Type := St → Except JsError α × St

instance : Monad M where
  pure a := fun s => (.ok a, s)
  bind m f := fun s =>
    match m s with
    | (.ok a, s1) => f a s1
    | (.error e, s1) => (.error e, s1)

/-- The statement `throw e`. -/
def throwJs {α : Type} (e : JsError) : M α := fun s => (.error e, s)

/-- The statement `try body catch (error) handler`. -/
def tryCatchJs {α : Type} (body : M α) (handler : JsError → M α) : M α := fun s =>
  match body s with
  | (.ok a, s1) => (.ok a, s1)
  | (.error e, s1) => handler e s1

/-- Record an effect in the trace. -/
def emit (e : Event) : M Unit := fun s =>
  (.ok (), { s with trace := s.trace ++ [e] })

/-- The call `await db.get(key)`. -/
def dbGet (env : Env) (key : String) : M JsVal := fun s =>
  match env.dbGetFail key with
  | some m => (.error (.store m), { s with trace := s.trace ++ [.dbGet key] })
  | none => (.ok (s.store key), { s with trace := s.trace ++ [.dbGet key] })

/-- The call `await db.set(key, value)`. -/
def dbSet (env : Env) (key : String) (value : JsVal) : M Unit := fun s =>
  match env.dbSetFail key value with
  | some m => (.error (.store m), { s with trace := s.trace ++ [.dbSet key value] })
  | none => (.ok (), { store := s.store.set key value, trace := s.trace ++ [.dbSet key value] })

/-- The call `randomstring.generate(length, charset)`. -/
def generate (env : Env) (length : Int) (charset : String) : M String := fun s =>
  (.ok (env.generate length charset), { s with trace := s.trace ++ [.generate length charset] })

/-- The call `await axios.post(url, body, headers)`. -/
def axiosPost (env : Env) (req : PostRequest) : M Body := fun s =>
  match env.post req with
  | .resolved data => (.ok data, { s with trace := s.trace ++ [.post req] })
  | .rejected msg resp => (.error (.axios msg resp), { s with trace := s.trace ++ [.post req] })

/-- The expression `x.data.userId` for a response (or error response) body. -/
def Body.userId : Body → M JsVal
  | .nullish => throwJs (.typeError "Cannot read properties of null (reading userId)")
  | .obj v => pure v

/-- The expression `error.response.data.userId`, evaluated after
`error.response?.status === 409` held (so `error.response` exists). -/
def JsError.responseUserId : JsError → M JsVal
  | .axios _ (some r) => r.data.userId
  | _ => throwJs (.typeError "Cannot read properties of undefined (reading data)")

/-! ## Configuration helpers -/

/-- The white space skipped by `parseInt` (`StrWhiteSpaceChar`). -/
def isStrWhiteSpaceChar (c : Char) : Bool :=
  decide (c.toNat ∈ [0x9, 0xA, 0xB, 0xC, 0xD, 0x20, 0xA0, 0x1680, 0x2028, 0x2029,
    0x202F, 0x205F, 0x3000, 0xFEFF]) || (decide (0x2000 ≤ c.toNat) && decide (c.toNat ≤ 0x200A))

/-- Value of a character as a digit (`0-9`, `a-z`, `A-Z`). -/
def digitValue (c : Char) : Option Nat :=
  if 48 ≤ c.toNat ∧ c.toNat ≤ 57 then some (c.toNat - 48)
  else if 97 ≤ c.toNat ∧ c.toNat ≤ 122 then some (c.toNat - 87)
  else if 65 ≤ c.toNat ∧ c.toNat ≤ 90 then some (c.toNat - 55)
  else none

/-- The longest run of leading radix-`R` digits, as digit values. -/
def takeDigits (R : Nat) : List Char → List Nat
  | [] => []
  | c :: cs =>
    match digitValue c with
    | some d => if d < R then d :: takeDigits R cs else []
    | none => []

/-- Strip an optional sign: the sign and the rest. -/
def splitSign : List Char → Int × List Char
  | '-' :: r => (-1, r)
  | '+' :: r => (1, r)
  | cs => (1, cs)

/-- Strip an optional `0x`/`0X`: the radix and the rest. -/
def splitRadix : List Char → Nat × List Char
  | '0' :: 'x' :: r => (16, r)
  | '0' :: 'X' :: r => (16, r)
  | cs => (10, cs)

/-- JavaScript `parseInt(s)` with no radix argument; `none` is `NaN`.
Numbers are exact integers here (the rounding of integers beyond 2^53 to
doubles is not modelled). -/
def parseInt (s : String) : Option Int :=
  let sr := splitSign (s.data.dropWhile isStrWhiteSpaceChar)
  let rr := splitRadix sr.2
  let Z := takeDigits rr.1 rr.2
  if Z = [] then none else some (sr.1 * ((Z.foldl (fun acc d => acc * rr.1 + d) 0 : Nat) : Int))

/-- String conversion of an environment variable (`undefined` when unset). -/
def envToString : Option String → String
  | none => "undefined"
  | some s => s

/-- The expression `parseInt(process.env.PASSWORD_LENGTH) || 12`: `NaN` and
`0` are falsy. -/
def passwordLength (penv : ProcessEnv) : Int :=
  match parseInt (envToString penv.PASSWORD_LENGTH) with
  | some n => if n ≠ 0 then n else 12
  | none => 12

/-- The field `hydrapanel.url`: `PANEL_URL` with one trailing slash removed. -/
def hydrapanelUrl (penv : ProcessEnv) : Option String :=
  match penv.PANEL_URL with
  | none => none
  | some u => if u.data.getLast? = some '/' then some ⟨u.data.dropLast⟩ else some u

/-- The field `hydrapanel.key`. -/
def hydrapanelKey (penv : ProcessEnv) : Option String := penv.PANEL_KEY

/-! ## Account management -/

/-- Key of the email index entry. -/
def idKey (email : String) : String := "id-" ++ email

/-- Key of the user record. -/
def userKey (discordId : String) : String := "user-" ++ discordId

/-- The function `handleHydraAccount(email, username, discordId)`.
`response.data.userId` is a pure expression; it is evaluated where the source
first evaluates it and the value is reused. -/
def handleHydraAccount (penv : ProcessEnv) (env : Env)
    (email username discordId : String) : M JsVal :=
  tryCatchJs
    (do
      let userId ← dbGet env (idKey email)
      if userId.truthy then pure userId
      else do
        let password ← generate env (passwordLength penv) "alphanumeric"
        let data ← axiosPost env {
          url := envToString (hydrapanelUrl penv) ++ "/api/auth/create-user"
          username := username
          email := email
          password := password
          userId := discordId
          apiKey := hydrapanelKey penv }
        let newId ← data.userId
        dbSet env (idKey email) newId
        dbSet env (userKey discordId) (.userRecord discordId email username newId)
        pure newId)
    (fun error =>
      if error.responseStatus = some 409 then do
        let existingId ← error.responseUserId
        dbSet env (idKey email) existingId
        pure existingId
      else throwJs error)

/-! ## Passport wiring -/

/-- The Discord profile fields read by the strategy callback; `none` stands
for `null`/`undefined`. -/
structure Profile where
  id : String
  username : String
  email : Option String
  avatar : Option String
  deriving DecidableEq, Repr

/-- The local user object built from a profile. -/
structure User where
  id : String
  username : String
  email : Option String
  avatar : Option String
  deriving DecidableEq, Repr

/-- The strategy verify callback: `done(null, user)` with the converted
profile. -/
def verify (profile : Profile) : Option JsError × User :=
  (none, { id := profile.id, username := profile.username,
           email := profile.email, avatar := profile.avatar })

/-- The callback given to `passport.serializeUser`: `done(null, user.id)`. -/
def serializeUser (user : User) : M Unit :=
  emit (.done none (.str user.id))

/-- The expression `user || null`. -/
def orNull (user : JsVal) : JsVal := if user.truthy then user else .null

/-- The callback given to `passport.deserializeUser`. -/
def deserializeUser (env : Env) (id : String) : M Unit :=
  tryCatchJs
    (do
      let user ← dbGet env (userKey id)
      emit (.done none (orNull user)))
    (fun err => emit (.done (some err) .null))

/-! ## Routes -/

/-- The session fields used by the routes (`undefined` is `none`). -/
structure Session where
  returnTo : Option String
  deriving DecidableEq, Repr

/-- The request as the routes see it: `req.user`, `req.query.returnTo` (a
string when given once) and `req.session`. -/
structure Request where
  user : Option User
  queryReturnTo : Option String
  session : Session
  deriving DecidableEq, Repr

/-- The expression `a || b` for an optional string `a` and a default `b`:
`undefined` and the empty string are falsy. -/
def orDefault (a : Option String) (b : String) : String :=
  match a with
  | some s => if s ≠ "" then s else b
  | none => b

/-- The route `GET /login/discord`: stores `returnTo` in the session, then
hands over to `passport.authenticate`. Returns the request with its updated
session. -/
def loginDiscord (req : Request) : M Request := do
  let req1 : Request :=
    { req with session := { returnTo := some (orDefault req.queryReturnTo "/dashboard") } }
  emit (.authenticate "discord")
  pure req1

/-- The error thrown for a user without email. -/
def noEmailError : JsError := .error "No email from Discord"

/-- The handler of `GET /callback/discord`, run after `passport.authenticate`
succeeded. The test `!req.user?.email` holds when `req.user` is absent or its
email is `null`, `undefined` or empty. -/
def callbackDiscord (penv : ProcessEnv) (env : Env) (req : Request) : M Unit :=
  tryCatchJs
    (match req.user with
      | some user =>
        match user.email with
        | some email =>
          if email ≠ "" then do
            let _ ← handleHydraAccount penv env email user.username user.id
            emit (.redirect (orDefault req.session.returnTo "/dashboard"))
          else throwJs noEmailError
        | none => throwJs noEmailError
      | none => throwJs noEmailError)
    (fun error => do
      emit (.logError "Auth callback failed" error)
      emit (.redirect "/login?error=account_setup_failed"))

/-- How the session store behind `req.session.destroy()` works: it either
removes the session before the call returns, or only starts the removal and
finishes it later (the call is given no callback, so nothing waits for it). -/
inductive DestroyMode where
  | immediate
  | deferred
  deriving DecidableEq, Repr

/-- The call `req.session.destroy()` with no callback. -/
def sessionDestroy (mode : DestroyMode) : M Unit := do
  emit .destroyCalled
  if mode = .immediate then emit .destroyCompleted else pure ()

/-- The handler of `GET /logout`: `req.logout` clears the authentication
(`req.user`) and then runs the callback, which calls `req.session.destroy()`
(the session is unset) and redirects. Returns the request as it is left. -/
def logoutHandler (mode : DestroyMode) (req : Request) : M Request := do
  emit .logoutCleared
  let req1 : Request := { req with user := none }
  sessionDestroy mode
  let req2 : Request := { req1 with session := { returnTo := none } }
  emit (.redirect "/")
  pure req2

/-- A run of `GET /logout` up to the moment the session is gone: the handler,
followed by the completion of a removal that was only started. -/
def logoutRun (mode : DestroyMode) (req : Request) : M Request := do
  let req1 ← logoutHandler mode req
  if mode = .deferred then emit .destroyCompleted else pure ()
  pure req1

/-! ## Concrete inputs used in the examples -/

deriving instance DecidableEq for Except

/-- The request built by `handleHydraAccount` on an index miss. -/
def createRequest (penv : ProcessEnv) (env : Env) (email username discordId : String) :
    PostRequest :=
  { url := envToString (hydrapanelUrl penv) ++ "/api/auth/create-user"
    username := username
    email := email
    password := env.generate (passwordLength penv) "alphanumeric"
    userId := discordId
    apiKey := hydrapanelKey penv }

/-- A configuration with a panel URL and key and no `PASSWORD_LENGTH`. -/
def sampleConfig : ProcessEnv :=
  { PANEL_URL := some "https://panel.example/", PANEL_KEY := some "k", PASSWORD_LENGTH := none }

/-- An environment in which the store never rejects and the API answers
every request with `api`. -/
def okEnv (api : ApiOutcome) : Env :=
  { dbGetFail := fun _ => none
    dbSetFail := fun _ _ => none
    generate := fun _ _ => "Zx81kQ07pLm3"
    post := fun _ => api }

/-- As `okEnv`, but `db.set` rejects every write to `key`. -/
def writeFailEnv (api : ApiOutcome) (key : String) : Env :=
  { okEnv api with dbSetFail := fun k _ => if k = key then some "write failed" else none }

/-- As `okEnv`, but `db.get` rejects every read. -/
def readFailEnv (api : ApiOutcome) : Env :=
  { okEnv api with dbGetFail := fun _ => some "read failed" }

/-- The initial state with an empty store and an empty trace. -/
def emptySt : St := { store := Store.empty, trace := [] }

/-- The initial state whose store holds one entry. -/
def singleSt (key : String) (value : JsVal) : St :=
  { store := Store.empty.set key value, trace := [] }

/-! ## Running `handleHydraAccount`: one rule per path -/

/-- The effects common to every run that misses the index: the read, the
credential generation and the request. -/
def missEvents (penv : ProcessEnv) (env : Env) (email username discordId : String) :
    List Event :=
  [.dbGet (idKey email), .generate (passwordLength penv) "alphanumeric",
   .post (createRequest penv env email username discordId)]

/-- All possible runs of `handleHydraAccount` from a state `s`, one rule per
path through the source. -/
inductive HydraRun (penv : ProcessEnv) (env : Env) (email username discordId : String)
    (s : St) : Except JsError JsVal × St → Prop where
  | readFail (m : String) (hget : env.dbGetFail (idKey email) = some m) :
      HydraRun penv env email username discordId s
        (.error (.store m), { store := s.store, trace := s.trace ++ [.dbGet (idKey email)] })
  | fast (hget : env.dbGetFail (idKey email) = none)
      (ht : (s.store (idKey email)).truthy = true) :
      HydraRun penv env email username discordId s
        (.ok (s.store (idKey email)),
          { store := s.store, trace := s.trace ++ [.dbGet (idKey email)] })
  | rejected (msg : String) (resp : Option HttpResponse)
      (hget : env.dbGetFail (idKey email) = none)
      (ht : (s.store (idKey email)).truthy = false)
      (hpost : env.post (createRequest penv env email username discordId) = .rejected msg resp)
      (hst : (JsError.axios msg resp).responseStatus ≠ some 409) :
      HydraRun penv env email username discordId s
        (.error (.axios msg resp),
          { store := s.store, trace := s.trace ++ missEvents penv env email username discordId })
  | conflictNoBody (msg : String)
      (hget : env.dbGetFail (idKey email) = none)
      (ht : (s.store (idKey email)).truthy = false)
      (hpost : env.post (createRequest penv env email username discordId)
        = .rejected msg (some { status := 409, data := .nullish })) :
      HydraRun penv env email username discordId s
        (.error (.typeError "Cannot read properties of null (reading userId)"),
          { store := s.store, trace := s.trace ++ missEvents penv env email username discordId })
  | conflictWriteFail (msg : String) (e : JsVal) (m : String)
      (hget : env.dbGetFail (idKey email) = none)
      (ht : (s.store (idKey email)).truthy = false)
      (hpost : env.post (createRequest penv env email username discordId)
        = .rejected msg (some { status := 409, data := .obj e }))
      (hset : env.dbSetFail (idKey email) e = some m) :
      HydraRun penv env email username discordId s
        (.error (.store m),
          { store := s.store
            trace := s.trace ++ missEvents penv env email username discordId
              ++ [.dbSet (idKey email) e] })
  | conflict (msg : String) (e : JsVal)
      (hget : env.dbGetFail (idKey email) = none)
      (ht : (s.store (idKey email)).truthy = false)
      (hpost : env.post (createRequest penv env email username discordId)
        = .rejected msg (some { status := 409, data := .obj e }))
      (hset : env.dbSetFail (idKey email) e = none) :
      HydraRun penv env email username discordId s
        (.ok e,
          { store := s.store.set (idKey email) e
            trace := s.trace ++ missEvents penv env email username discordId
              ++ [.dbSet (idKey email) e] })
  | resolvedNoBody
      (hget : env.dbGetFail (idKey email) = none)
      (ht : (s.store (idKey email)).truthy = false)
      (hpost : env.post (createRequest penv env email username discordId)
        = .resolved .nullish) :
      HydraRun penv env email username discordId s
        (.error (.typeError "Cannot read properties of null (reading userId)"),
          { store := s.store, trace := s.trace ++ missEvents penv env email username discordId })
  | indexWriteFail (newId : JsVal) (m : String)
      (hget : env.dbGetFail (idKey email) = none)
      (ht : (s.store (idKey email)).truthy = false)
      (hpost : env.post (createRequest penv env email username discordId)
        = .resolved (.obj newId))
      (hset1 : env.dbSetFail (idKey email) newId = some m) :
      HydraRun penv env email username discordId s
        (.error (.store m),
          { store := s.store
            trace := s.trace ++ missEvents penv env email username discordId
              ++ [.dbSet (idKey email) newId] })
  | recordWriteFail (newId : JsVal) (m : String)
      (hget : env.dbGetFail (idKey email) = none)
      (ht : (s.store (idKey email)).truthy = false)
      (hpost : env.post (createRequest penv env email username discordId)
        = .resolved (.obj newId))
      (hset1 : env.dbSetFail (idKey email) newId = none)
      (hset2 : env.dbSetFail (userKey discordId)
        (.userRecord discordId email username newId) = some m) :
      HydraRun penv env email username discordId s
        (.error (.store m),
          { store := s.store.set (idKey email) newId
            trace := s.trace ++ missEvents penv env email username discordId
              ++ [.dbSet (idKey email) newId,
                  .dbSet (userKey discordId) (.userRecord discordId email username newId)] })
  | created (newId : JsVal)
      (hget : env.dbGetFail (idKey email) = none)
      (ht : (s.store (idKey email)).truthy = false)
      (hpost : env.post (createRequest penv env email username discordId)
        = .resolved (.obj newId))
      (hset1 : env.dbSetFail (idKey email) newId = none)
      (hset2 : env.dbSetFail (userKey discordId)
        (.userRecord discordId email username newId) = none) :
      HydraRun penv env email username discordId s
        (.ok newId,
          { store := (s.store.set (idKey email) newId).set (userKey discordId)
              (.userRecord discordId email username newId)
            trace := s.trace ++ missEvents penv env email username discordId
              ++ [.dbSet (idKey email) newId,
                  .dbSet (userKey discordId) (.userRecord discordId email username newId)] })

/-! ## Basic facts -/

theorem bind_run {α β : Type} (m : M α) (f : α → M β) (s : St) :
    (m >>= f) s = match m s with
      | (.ok a, s1) => f a s1
      | (.error e, s1) => (.error e, s1) := rfl

theorem pure_run {α : Type} (a : α) (s : St) : (pure a : M α) s = (.ok a, s) := rfl

/-- The index key and the record key never coincide. -/
theorem idKey_ne_userKey (email discordId : String) : idKey email ≠ userKey discordId := by
  intro h
  have h2 := congrArg String.data h
  simp [idKey, userKey] at h2

/-- Every run of `handleHydraAccount` follows one of the rules of `HydraRun`. -/
theorem handleHydraAccount_run (penv : ProcessEnv) (env : Env)
    (email username discordId : String) (s : St) :
    HydraRun penv env email username discordId s
      (handleHydraAccount penv env email username discordId s) := by
  rcases hget : env.dbGetFail (idKey email) with _ | m
  · rcases ht : (s.store (idKey email)).truthy with _ | _
    · rcases hpost : env.post (createRequest penv env email username discordId)
        with data | ⟨msg, resp⟩
      · have hpost1 := hpost
        unfold createRequest at hpost1
        rcases data with _ | newId
        · have h : handleHydraAccount penv env email username discordId s
              = (.error (.typeError "Cannot read properties of null (reading userId)"),
                  { store := s.store
                    trace := s.trace ++ missEvents penv env email username discordId }) := by
            simp [handleHydraAccount, tryCatchJs, bind_run, pure_run, dbGet, hget, ht, generate,
              axiosPost, hpost1, Body.userId, throwJs, JsError.responseStatus, missEvents,
              createRequest]
          rw [h]
          exact .resolvedNoBody hget ht hpost
        · rcases hset1 : env.dbSetFail (idKey email) newId with _ | m
          · rcases hset2 : env.dbSetFail (userKey discordId)
              (.userRecord discordId email username newId) with _ | m
            · have h : handleHydraAccount penv env email username discordId s
                  = (.ok newId,
                      { store := (s.store.set (idKey email) newId).set (userKey discordId)
                          (.userRecord discordId email username newId)
                        trace := s.trace ++ missEvents penv env email username discordId
                          ++ [.dbSet (idKey email) newId,
                              .dbSet (userKey discordId)
                                (.userRecord discordId email username newId)] }) := by
                simp [handleHydraAccount, tryCatchJs, bind_run, pure_run, dbGet, hget, ht,
                  generate, axiosPost, hpost1, Body.userId, dbSet, hset1, hset2, missEvents,
                  createRequest]
              rw [h]
              exact .created newId hget ht hpost hset1 hset2
            · have h : handleHydraAccount penv env email username discordId s
                  = (.error (.store m),
                      { store := s.store.set (idKey email) newId
                        trace := s.trace ++ missEvents penv env email username discordId
                          ++ [.dbSet (idKey email) newId,
                              .dbSet (userKey discordId)
                                (.userRecord discordId email username newId)] }) := by
                simp [handleHydraAccount, tryCatchJs, bind_run, pure_run, dbGet, hget, ht,
                  generate, axiosPost, hpost1, Body.userId, dbSet, hset1, hset2, missEvents,
                  createRequest, throwJs, JsError.responseStatus]
              rw [h]
              exact .recordWriteFail newId m hget ht hpost hset1 hset2
          · have h : handleHydraAccount penv env email username discordId s
                = (.error (.store m),
                    { store := s.store
                      trace := s.trace ++ missEvents penv env email username discordId
                        ++ [.dbSet (idKey email) newId] }) := by
              simp [handleHydraAccount, tryCatchJs, bind_run, pure_run, dbGet, hget, ht,
                generate, axiosPost, hpost1, Body.userId, dbSet, hset1, missEvents,
                createRequest, throwJs, JsError.responseStatus]
            rw [h]
            exact .indexWriteFail newId m hget ht hpost hset1
      · have hpost1 := hpost
        unfold createRequest at hpost1
        by_cases hst : (JsError.axios msg resp).responseStatus = some 409
        · rcases resp with _ | ⟨status, data⟩
          · simp [JsError.responseStatus] at hst
          · have hs : status = 409 := by simpa [JsError.responseStatus] using hst
            subst hs
            rcases data with _ | e
            · have h : handleHydraAccount penv env email username discordId s
                  = (.error (.typeError "Cannot read properties of null (reading userId)"),
                      { store := s.store
                        trace := s.trace ++ missEvents penv env email username discordId }) := by
                simp [handleHydraAccount, tryCatchJs, bind_run, pure_run, dbGet, hget, ht,
                  generate, axiosPost, hpost1, Body.userId, throwJs, JsError.responseStatus,
                  JsError.responseUserId, missEvents, createRequest]
              rw [h]
              exact .conflictNoBody msg hget ht hpost
            · rcases hset : env.dbSetFail (idKey email) e with _ | m
              · have h : handleHydraAccount penv env email username discordId s
                    = (.ok e,
                        { store := s.store.set (idKey email) e
                          trace := s.trace ++ missEvents penv env email username discordId
                            ++ [.dbSet (idKey email) e] }) := by
                  simp [handleHydraAccount, tryCatchJs, bind_run, pure_run, dbGet, hget, ht,
                    generate, axiosPost, hpost1, Body.userId, throwJs, JsError.responseStatus,
                    JsError.responseUserId, missEvents, createRequest, dbSet, hset]
                rw [h]
                exact .conflict msg e hget ht hpost hset
              · have h : handleHydraAccount penv env email username discordId s
                    = (.error (.store m),
                        { store := s.store
                          trace := s.trace ++ missEvents penv env email username discordId
                            ++ [.dbSet (idKey email) e] }) := by
                  simp [handleHydraAccount, tryCatchJs, bind_run, pure_run, dbGet, hget, ht,
                    generate, axiosPost, hpost1, Body.userId, throwJs, JsError.responseStatus,
                    JsError.responseUserId, missEvents, createRequest, dbSet, hset]
                rw [h]
                exact .conflictWriteFail msg e m hget ht hpost hset
        · have h : handleHydraAccount penv env email username discordId s
              = (.error (.axios msg resp),
                  { store := s.store
                    trace := s.trace ++ missEvents penv env email username discordId }) := by
            simp [handleHydraAccount, tryCatchJs, bind_run, pure_run, dbGet, hget, ht,
              generate, axiosPost, hpost1, throwJs, hst, missEvents, createRequest]
          rw [h]
          exact .rejected msg resp hget ht hpost hst
    · have h : handleHydraAccount penv env email username discordId s
          = (.ok (s.store (idKey email)),
              { store := s.store, trace := s.trace ++ [.dbGet (idKey email)] }) := by
        simp [handleHydraAccount, tryCatchJs, bind_run, pure_run, dbGet, hget, ht]
      rw [h]
      exact .fast hget ht
  · have h : handleHydraAccount penv env email username discordId s
        = (.error (.store m),
            { store := s.store, trace := s.trace ++ [.dbGet (idKey email)] }) := by
      simp [handleHydraAccount, tryCatchJs, bind_run, pure_run, dbGet, hget, throwJs,
        JsError.responseStatus]
    rw [h]
    exact .readFail m hget

/-- When `handleHydraAccount` returns `id`, the index entry of the email holds
`id` afterwards. -/
theorem returned_id_indexed (penv : ProcessEnv) (env : Env)
    (email username discordId : String) (s : St) (id : JsVal)
    (hret : (handleHydraAccount penv env email username discordId s).1 = .ok id) :
    (handleHydraAccount penv env email username discordId s).2.store (idKey email) = id := by
  have hr := handleHydraAccount_run penv env email username discordId s
  generalize handleHydraAccount penv env email username discordId s = out at hr hret
  cases hr <;> simp_all [Store.set, idKey_ne_userKey]

/-- On an index hit with a truthy value the function returns that value after
the single read. -/
theorem fast_path (penv : ProcessEnv) (env : Env) (email username discordId : String)
    (s : St) (hget : env.dbGetFail (idKey email) = none)
    (ht : (s.store (idKey email)).truthy = true) :
    handleHydraAccount penv env email username discordId s
      = (.ok (s.store (idKey email)),
          { store := s.store, trace := s.trace ++ [.dbGet (idKey email)] }) := by
  simp [handleHydraAccount, tryCatchJs, bind_run, pure_run, dbGet, hget, ht]

/-! ## C1: what the store holds after a successful return -/

/-- C1 (as stated, refuted): on the fast path the function returns the indexed
id although the store holds no user record for the caller: with the index
entry of `a@x.com` equal to `"42"` and no record for user `1001`, the call
returns `"42"` and `user-1001` is still `undefined`. -/
theorem C1_counterexample_fast_path_no_record :
    (handleHydraAccount sampleConfig (okEnv (.resolved (.obj (.str "42"))))
        "a@x.com" "alice" "1001" (singleSt (idKey "a@x.com") (.str "42"))).1
      = .ok (.str "42")
    ∧ (handleHydraAccount sampleConfig (okEnv (.resolved (.obj (.str "42"))))
        "a@x.com" "alice" "1001" (singleSt (idKey "a@x.com") (.str "42"))).2.store
        (userKey "1001") = .undefined
    ∧ JsVal.undefined ≠ .userRecord "1001" "a@x.com" "alice" (.str "42") := by
  decide

/-- C1 (amended): whenever `handleHydraAccount` returns `id`, the index entry
`id-<email>` holds `id` afterwards; on the fast path (truthy index entry) the
store is unchanged; on the create path (index miss, request resolved) the
record at `user-<externalId>` is `{id: externalId, email, username, hydraId: id}`. -/
theorem C1_returned_id_reflected (penv : ProcessEnv) (env : Env)
    (email username discordId : String) (s : St) (id : JsVal)
    (hret : (handleHydraAccount penv env email username discordId s).1 = .ok id) :
    (handleHydraAccount penv env email username discordId s).2.store (idKey email) = id
    ∧ ((s.store (idKey email)).truthy = true →
        (handleHydraAccount penv env email username discordId s).2.store = s.store)
    ∧ ((s.store (idKey email)).truthy = false →
        ∀ data, env.post (createRequest penv env email username discordId) = .resolved data →
          (handleHydraAccount penv env email username discordId s).2.store (userKey discordId)
            = .userRecord discordId email username id) := by
  refine ⟨returned_id_indexed penv env email username discordId s id hret, ?_, ?_⟩
  · intro ht
    have hr := handleHydraAccount_run penv env email username discordId s
    generalize handleHydraAccount penv env email username discordId s = out at hr hret
    cases hr <;> simp_all
  · intro ht data hdata
    have hr := handleHydraAccount_run penv env email username discordId s
    generalize handleHydraAccount penv env email username discordId s = out at hr hret
    cases hr <;> simp_all [Store.set]

/-- C1 (amended), at a concrete input: first login of `a@x.com`, the API
answers `{userId: "42"}`. -/
theorem C1_returned_id_reflected_witness :
    (handleHydraAccount sampleConfig (okEnv (.resolved (.obj (.str "42"))))
        "a@x.com" "alice" "1001" emptySt).1 = .ok (.str "42")
    ∧ (handleHydraAccount sampleConfig (okEnv (.resolved (.obj (.str "42"))))
        "a@x.com" "alice" "1001" emptySt).2.store (idKey "a@x.com") = .str "42"
    ∧ (handleHydraAccount sampleConfig (okEnv (.resolved (.obj (.str "42"))))
        "a@x.com" "alice" "1001" emptySt).2.store (userKey "1001")
        = .userRecord "1001" "a@x.com" "alice" (.str "42") :=
  ⟨by decide,
   (C1_returned_id_reflected sampleConfig (okEnv (.resolved (.obj (.str "42"))))
      "a@x.com" "alice" "1001" emptySt (.str "42") (by decide)).1,
   (C1_returned_id_reflected sampleConfig (okEnv (.resolved (.obj (.str "42"))))
      "a@x.com" "alice" "1001" emptySt (.str "42") (by decide)).2.2 (by decide)
      (.obj (.str "42")) rfl⟩

/-! ## C2: the fast path -/

/-- C2 (as stated, refuted): an index entry that is present but falsy is not
returned. With the entry of `a@x.com` equal to `0`, the call sends a
create-account request, returns the new id `"42"` and overwrites the entry. -/
theorem C2_counterexample_falsy_entry :
    (singleSt (idKey "a@x.com") (.num 0)).store (idKey "a@x.com") = .num 0
    ∧ JsVal.num 0 ≠ .undefined
    ∧ (handleHydraAccount sampleConfig (okEnv (.resolved (.obj (.str "42"))))
        "a@x.com" "alice" "1001" (singleSt (idKey "a@x.com") (.num 0))).1
      = .ok (.str "42")
    ∧ ((handleHydraAccount sampleConfig (okEnv (.resolved (.obj (.str "42"))))
        "a@x.com" "alice" "1001" (singleSt (idKey "a@x.com") (.num 0))).2.trace.countP
        Event.isPost) = 1
    ∧ (handleHydraAccount sampleConfig (okEnv (.resolved (.obj (.str "42"))))
        "a@x.com" "alice" "1001" (singleSt (idKey "a@x.com") (.num 0))).2.store
        (idKey "a@x.com") = .str "42" := by
  decide

/-- C2 (amended): when the read of `id-<email>` succeeds and yields a truthy
value `v`, `handleHydraAccount` returns exactly `v`, its only effect is that
read (no create-account request), and the store is unchanged. -/
theorem C2_fast_path (penv : ProcessEnv) (env : Env) (email username discordId : String)
    (s : St) (hget : env.dbGetFail (idKey email) = none)
    (ht : (s.store (idKey email)).truthy = true) :
    (handleHydraAccount penv env email username discordId s).1 = .ok (s.store (idKey email))
    ∧ (handleHydraAccount penv env email username discordId s).2.trace
        = s.trace ++ [.dbGet (idKey email)]
    ∧ (handleHydraAccount penv env email username discordId s).2.store = s.store := by
  rw [fast_path penv env email username discordId s hget ht]
  exact ⟨rfl, rfl, rfl⟩

/-- C2 (amended), at a concrete input: the index maps `a@x.com` to `"42"`. -/
theorem C2_fast_path_witness :
    (handleHydraAccount sampleConfig (okEnv (.rejected "unreachable" none))
        "a@x.com" "alice" "1001" (singleSt (idKey "a@x.com") (.str "42"))).1
      = .ok (.str "42")
    ∧ (handleHydraAccount sampleConfig (okEnv (.rejected "unreachable" none))
        "a@x.com" "alice" "1001" (singleSt (idKey "a@x.com") (.str "42"))).2.trace
      = [.dbGet (idKey "a@x.com")] :=
  ⟨(C2_fast_path sampleConfig (okEnv (.rejected "unreachable" none))
      "a@x.com" "alice" "1001" (singleSt (idKey "a@x.com") (.str "42")) rfl (by decide)).1,
   (C2_fast_path sampleConfig (okEnv (.rejected "unreachable" none))
      "a@x.com" "alice" "1001" (singleSt (idKey "a@x.com") (.str "42")) rfl (by decide)).2.1⟩

/-! ## C3: idempotence -/

/-- C3 (as stated, refuted): when the API answers the first call with the
falsy id `0`, the first call returns `0`, and the second call with the same
email misses the index again, sends a second create-account request and
returns what the API answers then (`1`). -/
theorem C3_counterexample_falsy_id :
    (handleHydraAccount sampleConfig (okEnv (.resolved (.obj (.num 0))))
        "a@x.com" "alice" "1001" emptySt).1 = .ok (.num 0)
    ∧ (handleHydraAccount sampleConfig (okEnv (.resolved (.obj (.num 1))))
        "a@x.com" "alice" "1001"
        { store := (handleHydraAccount sampleConfig (okEnv (.resolved (.obj (.num 0))))
            "a@x.com" "alice" "1001" emptySt).2.store, trace := [] }).1 = .ok (.num 1)
    ∧ ((handleHydraAccount sampleConfig (okEnv (.resolved (.obj (.num 1))))
        "a@x.com" "alice" "1001"
        { store := (handleHydraAccount sampleConfig (okEnv (.resolved (.obj (.num 0))))
            "a@x.com" "alice" "1001" emptySt).2.store, trace := [] }).2.trace.countP
        Event.isPost) = 1 := by
  decide

/-- C3 (amended): if a call of `handleHydraAccount` returns a truthy `id`, then
a second call with the same email on the resulting store (whose read succeeds,
whatever its other arguments and whatever the API would answer) returns the
same `id`, its only effect is the read of the index (no create-account
request), and it leaves the store unchanged. -/
theorem C3_idempotent (penv : ProcessEnv) (env1 env2 : Env)
    (email username1 discordId1 username2 discordId2 : String) (s : St) (id : JsVal)
    (hret : (handleHydraAccount penv env1 email username1 discordId1 s).1 = .ok id)
    (hid : id.truthy = true)
    (hget2 : env2.dbGetFail (idKey email) = none) :
    (handleHydraAccount penv env2 email username2 discordId2
        (handleHydraAccount penv env1 email username1 discordId1 s).2).1 = .ok id
    ∧ (handleHydraAccount penv env2 email username2 discordId2
        (handleHydraAccount penv env1 email username1 discordId1 s).2).2.trace
      = (handleHydraAccount penv env1 email username1 discordId1 s).2.trace
          ++ [.dbGet (idKey email)]
    ∧ (handleHydraAccount penv env2 email username2 discordId2
        (handleHydraAccount penv env1 email username1 discordId1 s).2).2.store
      = (handleHydraAccount penv env1 email username1 discordId1 s).2.store := by
  have hidx := returned_id_indexed penv env1 email username1 discordId1 s id hret
  have ht : ((handleHydraAccount penv env1 email username1 discordId1 s).2.store
      (idKey email)).truthy = true := by rw [hidx]; exact hid
  rw [fast_path penv env2 email username2 discordId2 _ hget2 ht, hidx]
  exact ⟨rfl, rfl, rfl⟩

/-- C3 (amended), at the example of the specification: `a@x.com`, no index
entry, the API answers `{userId: "42"}`; the second call returns `"42"` and
only reads the index, although the API would now fail. -/
theorem C3_idempotent_witness :
    (handleHydraAccount sampleConfig (okEnv (.resolved (.obj (.str "42"))))
        "a@x.com" "alice" "1001" emptySt).1 = .ok (.str "42")
    ∧ (handleHydraAccount sampleConfig (okEnv (.rejected "down" none))
        "a@x.com" "alice" "1001"
        (handleHydraAccount sampleConfig (okEnv (.resolved (.obj (.str "42"))))
          "a@x.com" "alice" "1001" emptySt).2).1 = .ok (.str "42")
    ∧ (handleHydraAccount sampleConfig (okEnv (.rejected "down" none))
        "a@x.com" "alice" "1001"
        (handleHydraAccount sampleConfig (okEnv (.resolved (.obj (.str "42"))))
          "a@x.com" "alice" "1001" emptySt).2).2.trace
      = (handleHydraAccount sampleConfig (okEnv (.resolved (.obj (.str "42"))))
          "a@x.com" "alice" "1001" emptySt).2.trace ++ [.dbGet (idKey "a@x.com")] :=
  ⟨by decide,
   (C3_idempotent sampleConfig (okEnv (.resolved (.obj (.str "42"))))
      (okEnv (.rejected "down" none)) "a@x.com" "alice" "1001" "alice" "1001" emptySt
      (.str "42") (by decide) (by decide) rfl).1,
   (C3_idempotent sampleConfig (okEnv (.resolved (.obj (.str "42"))))
      (okEnv (.rejected "down" none)) "a@x.com" "alice" "1001" "alice" "1001" emptySt
      (.str "42") (by decide) (by decide) rfl).2.1⟩

/-! ## C4: conflict self-healing -/

/-- C4 (as stated, refuted): (a) for `b@x.com` with no index entry and a 409
answer with `{userId: "7"}`, the call throws when the write of the index is
rejected by the store; (b) when the 409 payload carries the falsy id `""`, the
call returns `""`, and the following call with the same email does not take
the fast path: it sends a create-account request (and returns the `"9"` the
API answers then). -/
theorem C4_counterexample_write_fails_or_falsy_id :
    (handleHydraAccount sampleConfig
        (writeFailEnv (.rejected "Conflict" (some { status := 409, data := .obj (.str "7") }))
          (idKey "b@x.com"))
        "b@x.com" "bob" "1002" emptySt).1 = .error (.store "write failed")
    ∧ (handleHydraAccount sampleConfig
        (okEnv (.rejected "Conflict" (some { status := 409, data := .obj (.str "") })))
        "b@x.com" "bob" "1002" emptySt).1 = .ok (.str "")
    ∧ (handleHydraAccount sampleConfig (okEnv (.resolved (.obj (.str "9"))))
        "b@x.com" "bob" "1002"
        { store := (handleHydraAccount sampleConfig
            (okEnv (.rejected "Conflict" (some { status := 409, data := .obj (.str "") })))
            "b@x.com" "bob" "1002" emptySt).2.store, trace := [] }).1 = .ok (.str "9")
    ∧ ((handleHydraAccount sampleConfig (okEnv (.resolved (.obj (.str "9"))))
        "b@x.com" "bob" "1002"
        { store := (handleHydraAccount sampleConfig
            (okEnv (.rejected "Conflict" (some { status := 409, data := .obj (.str "") })))
            "b@x.com" "bob" "1002" emptySt).2.store, trace := [] }).2.trace.countP
        Event.isPost) = 1 := by
  decide

/-- C4 (amended): for an email whose index read succeeds and yields no (or a
falsy) entry, if the create-account API fails with status 409 and payload
`userId = e` and the store accepts the write of the index, then
`handleHydraAccount` returns `e` and the index entry `id-<email>` holds `e`
afterwards; if moreover `e` is truthy, a following call with the same email
(whose read succeeds) returns `e` and only reads the index (no create-account
request). -/
theorem C4_conflict_self_heals (penv : ProcessEnv) (env : Env)
    (email username discordId : String) (s : St) (msg : String) (e : JsVal)
    (hget : env.dbGetFail (idKey email) = none)
    (hmiss : (s.store (idKey email)).truthy = false)
    (hpost : env.post (createRequest penv env email username discordId)
      = .rejected msg (some { status := 409, data := .obj e }))
    (hset : env.dbSetFail (idKey email) e = none) :
    (handleHydraAccount penv env email username discordId s).1 = .ok e
    ∧ (handleHydraAccount penv env email username discordId s).2.store (idKey email) = e
    ∧ (e.truthy = true →
        ∀ (penv2 : ProcessEnv) (env2 : Env) (username2 discordId2 : String),
          env2.dbGetFail (idKey email) = none →
          (handleHydraAccount penv2 env2 email username2 discordId2
              (handleHydraAccount penv env email username discordId s).2).1 = .ok e
          ∧ (handleHydraAccount penv2 env2 email username2 discordId2
              (handleHydraAccount penv env email username discordId s).2).2.trace
            = (handleHydraAccount penv env email username discordId s).2.trace
                ++ [.dbGet (idKey email)]) := by
  have hret : (handleHydraAccount penv env email username discordId s).1 = .ok e := by
    have hr := handleHydraAccount_run penv env email username discordId s
    generalize handleHydraAccount penv env email username discordId s = out at hr
    cases hr <;> simp_all [JsError.responseStatus]
  have hidx := returned_id_indexed penv env email username discordId s e hret
  refine ⟨hret, hidx, ?_⟩
  intro he penv2 env2 username2 discordId2 hget2
  have ht : ((handleHydraAccount penv env email username discordId s).2.store
      (idKey email)).truthy = true := by rw [hidx]; exact he
  rw [fast_path penv2 env2 email username2 discordId2 _ hget2 ht, hidx]
  exact ⟨rfl, rfl⟩

/-- C4 (amended), at the example of the specification: `b@x.com`, the API
answers 409 with `{userId: "7"}`. -/
theorem C4_conflict_self_heals_witness :
    (handleHydraAccount sampleConfig
        (okEnv (.rejected "Conflict" (some { status := 409, data := .obj (.str "7") })))
        "b@x.com" "bob" "1002" emptySt).1 = .ok (.str "7")
    ∧ (handleHydraAccount sampleConfig
        (okEnv (.rejected "Conflict" (some { status := 409, data := .obj (.str "7") })))
        "b@x.com" "bob" "1002" emptySt).2.store (idKey "b@x.com") = .str "7"
    ∧ (handleHydraAccount sampleConfig (okEnv (.rejected "down" none)) "b@x.com" "bob" "1002"
        (handleHydraAccount sampleConfig
          (okEnv (.rejected "Conflict" (some { status := 409, data := .obj (.str "7") })))
          "b@x.com" "bob" "1002" emptySt).2).1 = .ok (.str "7") :=
  ⟨(C4_conflict_self_heals sampleConfig
      (okEnv (.rejected "Conflict" (some { status := 409, data := .obj (.str "7") })))
      "b@x.com" "bob" "1002" emptySt "Conflict" (.str "7") rfl (by decide) rfl rfl).1,
   (C4_conflict_self_heals sampleConfig
      (okEnv (.rejected "Conflict" (some { status := 409, data := .obj (.str "7") })))
      "b@x.com" "bob" "1002" emptySt "Conflict" (.str "7") rfl (by decide) rfl rfl).2.1,
   ((C4_conflict_self_heals sampleConfig
      (okEnv (.rejected "Conflict" (some { status := 409, data := .obj (.str "7") })))
      "b@x.com" "bob" "1002" emptySt "Conflict" (.str "7") rfl (by decide) rfl rfl).2.2
      (by decide) sampleConfig (okEnv (.rejected "down" none)) "bob" "1002" rfl).1⟩

/-! ## C5: what a throwing call leaves behind -/

/-- C5 (as stated, refuted): when the API answers `{userId: "42"}`, the write
of the index succeeds and the write of the user record is rejected, the call
throws, and the store is not as before: `id-a@x.com` now holds `"42"` while
`user-1001` is still `undefined`. -/
theorem C5_counterexample_index_without_record :
    (handleHydraAccount sampleConfig
        (writeFailEnv (.resolved (.obj (.str "42"))) (userKey "1001"))
        "a@x.com" "alice" "1001" emptySt).1 = .error (.store "write failed")
    ∧ emptySt.store (idKey "a@x.com") = .undefined
    ∧ (handleHydraAccount sampleConfig
        (writeFailEnv (.resolved (.obj (.str "42"))) (userKey "1001"))
        "a@x.com" "alice" "1001" emptySt).2.store (idKey "a@x.com") = .str "42"
    ∧ (handleHydraAccount sampleConfig
        (writeFailEnv (.resolved (.obj (.str "42"))) (userKey "1001"))
        "a@x.com" "alice" "1001" emptySt).2.store (userKey "1001") = .undefined := by
  decide

/-- C5 (amended): every failure point makes `handleHydraAccount` throw that
failure, and every throw is one of these failures, unchanged. In one
direction: a rejected read of `id-<email>`, a request rejected without a 409
status, a rejected write of the index and a rejected write of the user record
each make the call throw exactly that error. In the other: if the call throws
`err`, it made at most one create-account request, and `err` is the store
error of the rejected read, or (after a successful read of a falsy entry) the
axios error of the request rejected without a 409 status, the `TypeError` of
reading `userId` from a `null` body of the 2xx or of the 409 response, the
store error of the rejected write of `id-<email>` with the value being written
(the new id, or the existing id on the 409 path), in all of which the store is
exactly as before, or the store error of the rejected write of the user
record, in which case the store differs from the initial one exactly by the
index entry `id-<email>`, already set to the new id. -/
theorem C5_throw_characterised (penv : ProcessEnv) (env : Env)
    (email username discordId : String) (s : St) :
    (∀ m, env.dbGetFail (idKey email) = some m →
        (handleHydraAccount penv env email username discordId s).1 = .error (.store m))
    ∧ (env.dbGetFail (idKey email) = none → (s.store (idKey email)).truthy = false →
        (∀ msg resp,
          env.post (createRequest penv env email username discordId) = .rejected msg resp →
          (JsError.axios msg resp).responseStatus ≠ some 409 →
          (handleHydraAccount penv env email username discordId s).1
            = .error (.axios msg resp))
        ∧ (∀ newId m,
          env.post (createRequest penv env email username discordId) = .resolved (.obj newId) →
          env.dbSetFail (idKey email) newId = some m →
          (handleHydraAccount penv env email username discordId s).1 = .error (.store m))
        ∧ (∀ newId m,
          env.post (createRequest penv env email username discordId) = .resolved (.obj newId) →
          env.dbSetFail (idKey email) newId = none →
          env.dbSetFail (userKey discordId)
            (.userRecord discordId email username newId) = some m →
          (handleHydraAccount penv env email username discordId s).1 = .error (.store m)))
    ∧ (∀ err, (handleHydraAccount penv env email username discordId s).1 = .error err →
        (∃ evs,
          (handleHydraAccount penv env email username discordId s).2.trace = s.trace ++ evs
          ∧ evs.countP Event.isPost ≤ 1)
        ∧ ((∃ m, env.dbGetFail (idKey email) = some m ∧ err = .store m
              ∧ (handleHydraAccount penv env email username discordId s).2.store = s.store)
          ∨ (env.dbGetFail (idKey email) = none ∧ (s.store (idKey email)).truthy = false
            ∧ ((∃ msg resp,
                  env.post (createRequest penv env email username discordId)
                    = .rejected msg resp
                  ∧ (JsError.axios msg resp).responseStatus ≠ some 409
                  ∧ err = .axios msg resp
                  ∧ (handleHydraAccount penv env email username discordId s).2.store
                      = s.store)
              ∨ ((env.post (createRequest penv env email username discordId)
                      = .resolved .nullish
                    ∨ ∃ msg, env.post (createRequest penv env email username discordId)
                      = .rejected msg (some { status := 409, data := .nullish }))
                  ∧ err = .typeError "Cannot read properties of null (reading userId)"
                  ∧ (handleHydraAccount penv env email username discordId s).2.store
                      = s.store)
              ∨ (∃ newId m,
                  env.post (createRequest penv env email username discordId)
                    = .resolved (.obj newId)
                  ∧ env.dbSetFail (idKey email) newId = some m
                  ∧ err = .store m
                  ∧ (handleHydraAccount penv env email username discordId s).2.store
                      = s.store)
              ∨ (∃ msg e m,
                  env.post (createRequest penv env email username discordId)
                    = .rejected msg (some { status := 409, data := .obj e })
                  ∧ env.dbSetFail (idKey email) e = some m
                  ∧ err = .store m
                  ∧ (handleHydraAccount penv env email username discordId s).2.store
                      = s.store)
              ∨ (∃ newId m,
                  env.post (createRequest penv env email username discordId)
                    = .resolved (.obj newId)
                  ∧ env.dbSetFail (idKey email) newId = none
                  ∧ env.dbSetFail (userKey discordId)
                      (.userRecord discordId email username newId) = some m
                  ∧ err = .store m
                  ∧ (handleHydraAccount penv env email username discordId s).2.store
                      = s.store.set (idKey email) newId))))) := by
  have hr := handleHydraAccount_run penv env email username discordId s
  generalize handleHydraAccount penv env email username discordId s = out at hr
  refine ⟨?_, ?_, ?_⟩
  · intro m hm
    cases hr <;> simp_all
  · intro hget hmiss
    refine ⟨?_, ?_, ?_⟩
    · intro msg resp hp hst
      cases hr <;> simp_all <;> (obtain ⟨_, rfl⟩ := hp; exact hst rfl)
    · intro newId m hp hset
      cases hr <;> simp_all
    · intro newId m hp hset1 hset2
      cases hr <;> simp_all
  · intro err hthrow
    cases hr with
    | readFail m hget =>
      simp only [Except.error.injEq] at hthrow
      subst hthrow
      exact ⟨⟨_, rfl, by simp [Event.isPost]⟩, .inl ⟨m, hget, rfl, rfl⟩⟩
    | fast hget ht => simp at hthrow
    | rejected msg resp hget ht hpost hst =>
      simp only [Except.error.injEq] at hthrow
      subst hthrow
      exact ⟨⟨_, rfl, by simp [missEvents, Event.isPost]⟩,
        .inr ⟨hget, ht, .inl ⟨msg, resp, hpost, hst, rfl, rfl⟩⟩⟩
    | conflictNoBody msg hget ht hpost =>
      simp only [Except.error.injEq] at hthrow
      subst hthrow
      exact ⟨⟨_, rfl, by simp [missEvents, Event.isPost]⟩,
        .inr ⟨hget, ht, .inr (.inl ⟨.inr ⟨msg, hpost⟩, rfl, rfl⟩)⟩⟩
    | conflictWriteFail msg e m hget ht hpost hset =>
      simp only [Except.error.injEq] at hthrow
      subst hthrow
      exact ⟨⟨_, List.append_assoc _ _ _, by simp [missEvents, Event.isPost]⟩,
        .inr ⟨hget, ht, .inr (.inr (.inr (.inl ⟨msg, e, m, hpost, hset, rfl, rfl⟩)))⟩⟩
    | conflict msg e hget ht hpost hset => simp at hthrow
    | resolvedNoBody hget ht hpost =>
      simp only [Except.error.injEq] at hthrow
      subst hthrow
      exact ⟨⟨_, rfl, by simp [missEvents, Event.isPost]⟩,
        .inr ⟨hget, ht, .inr (.inl ⟨.inl hpost, rfl, rfl⟩)⟩⟩
    | indexWriteFail newId m hget ht hpost hset1 =>
      simp only [Except.error.injEq] at hthrow
      subst hthrow
      exact ⟨⟨_, List.append_assoc _ _ _, by simp [missEvents, Event.isPost]⟩,
        .inr ⟨hget, ht, .inr (.inr (.inl ⟨newId, m, hpost, hset1, rfl, rfl⟩))⟩⟩
    | recordWriteFail newId m hget ht hpost hset1 hset2 =>
      simp only [Except.error.injEq] at hthrow
      subst hthrow
      exact ⟨⟨_, List.append_assoc _ _ _, by simp [missEvents, Event.isPost]⟩,
        .inr ⟨hget, ht, .inr (.inr (.inr (.inr
          ⟨newId, m, hpost, hset1, hset2, rfl, rfl⟩)))⟩⟩
    | created newId hget ht hpost hset1 hset2 => simp at hthrow

/-- C5 (amended), at concrete inputs: the API rejects the request of `a@x.com`
with status 500 and the call throws that error after at most one request; the
store rejects the write of the user record and the call throws that store
error. -/
theorem C5_throw_characterised_witness :
    (handleHydraAccount sampleConfig
        (okEnv (.rejected "Server Error" (some { status := 500, data := .nullish })))
        "a@x.com" "alice" "1001" emptySt).1
      = .error (.axios "Server Error" (some { status := 500, data := .nullish }))
    ∧ (∃ evs, (handleHydraAccount sampleConfig
        (okEnv (.rejected "Server Error" (some { status := 500, data := .nullish })))
        "a@x.com" "alice" "1001" emptySt).2.trace = emptySt.trace ++ evs
        ∧ evs.countP Event.isPost ≤ 1)
    ∧ (handleHydraAccount sampleConfig
        (writeFailEnv (.resolved (.obj (.str "42"))) (userKey "1001"))
        "a@x.com" "alice" "1001" emptySt).1 = .error (.store "write failed") :=
  ⟨((C5_throw_characterised sampleConfig
      (okEnv (.rejected "Server Error" (some { status := 500, data := .nullish })))
      "a@x.com" "alice" "1001" emptySt).2.1 rfl (by decide)).1
      "Server Error" (some { status := 500, data := .nullish }) rfl (by decide),
   ((C5_throw_characterised sampleConfig
      (okEnv (.rejected "Server Error" (some { status := 500, data := .nullish })))
      "a@x.com" "alice" "1001" emptySt).2.2
      (.axios "Server Error" (some { status := 500, data := .nullish })) (by decide)).1,
   ((C5_throw_characterised sampleConfig
      (writeFailEnv (.resolved (.obj (.str "42"))) (userKey "1001"))
      "a@x.com" "alice" "1001" emptySt).2.1 rfl (by decide)).2.2
      (.str "42") "write failed" rfl (by decide) (by decide)⟩

/-! ## C6: a user without email -/

/-- The run of the callback handler for a user without email. -/
theorem callback_no_email (penv : ProcessEnv) (env : Env) (req : Request) (s : St)
    (hno : req.user = none ∨ ∃ u, req.user = some u ∧ (u.email = none ∨ u.email = some "")) :
    callbackDiscord penv env req s
      = (.ok (), { store := s.store
                   trace := s.trace ++ [.logError "Auth callback failed" noEmailError,
                     .redirect "/login?error=account_setup_failed"] }) := by
  rcases hno with h | ⟨u, h, he | he⟩
  · simp [callbackDiscord, tryCatchJs, bind_run, pure_run, emit, throwJs, h]
  · simp [callbackDiscord, tryCatchJs, bind_run, pure_run, emit, throwJs, h, he]
  · simp [callbackDiscord, tryCatchJs, bind_run, pure_run, emit, throwJs, h, he]

/-- C6: when the authenticated request has no user, or its user has an email
that is `null`/`undefined` or empty, the callback handler does exactly two
things: one call of `logError` and the redirect to
`/login?error=account_setup_failed`; it does not touch the store and sends no
request (`handleHydraAccount` is not invoked). Conversely, a run that contains
a store access or a create-account request is a run for a user with a
non-empty email. -/
theorem C6_missing_email_fails_early (penv : ProcessEnv) (env : Env) (req : Request) (s : St) :
    ((req.user = none ∨ ∃ u, req.user = some u ∧ (u.email = none ∨ u.email = some "")) →
      callbackDiscord penv env req s
        = (.ok (), { store := s.store
                     trace := s.trace ++ [.logError "Auth callback failed" noEmailError,
                       .redirect "/login?error=account_setup_failed"] })
      ∧ [Event.logError "Auth callback failed" noEmailError,
          Event.redirect "/login?error=account_setup_failed"].countP Event.isLogError = 1)
    ∧ ((∃ ev ∈ (callbackDiscord penv env req s).2.trace.drop s.trace.length,
          ev.isStoreAccess = true ∨ ev.isPost = true) →
        ∃ u email, req.user = some u ∧ u.email = some email ∧ email ≠ "") := by
  refine ⟨fun hno => ⟨callback_no_email penv env req s hno, by decide⟩, ?_⟩
  intro hev
  by_contra hcon
  have hno : req.user = none ∨
      ∃ u, req.user = some u ∧ (u.email = none ∨ u.email = some "") := by
    rcases hu : req.user with _ | u
    · exact .inl rfl
    · refine .inr ⟨u, rfl, ?_⟩
      rcases he : u.email with _ | email
      · exact .inl rfl
      · by_cases hem : email = ""
        · exact .inr (by rw [hem])
        · exact absurd ⟨u, email, hu, he, hem⟩ hcon
  rw [callback_no_email penv env req s hno] at hev
  simp [Event.isStoreAccess, Event.isPost] at hev

/-- C6, at concrete inputs: a request without user, and a user whose email is
the empty string. -/
theorem C6_missing_email_fails_early_witness :
    callbackDiscord sampleConfig (okEnv (.resolved (.obj (.str "42"))))
        { user := none, queryReturnTo := none, session := { returnTo := some "/billing" } }
        emptySt
      = (.ok (), { store := emptySt.store
                   trace := emptySt.trace ++ [.logError "Auth callback failed" noEmailError,
                     .redirect "/login?error=account_setup_failed"] })
    ∧ ∃ u email,
        (some { id := "1001", username := "alice", email := some "a@x.com", avatar := none }
          : Option User) = some u ∧ u.email = some email ∧ email ≠ "" :=
  ⟨((C6_missing_email_fails_early sampleConfig (okEnv (.resolved (.obj (.str "42"))))
      { user := none, queryReturnTo := none, session := { returnTo := some "/billing" } }
      emptySt).1 (.inl rfl)).1,
   (C6_missing_email_fails_early sampleConfig (okEnv (.resolved (.obj (.str "42"))))
      { user := some { id := "1001", username := "alice", email := some "a@x.com",
                       avatar := none },
        queryReturnTo := none, session := { returnTo := some "/billing" } }
      emptySt).2 ⟨.dbGet (idKey "a@x.com"), by decide, .inl rfl⟩⟩

/-! ## C7: the login keeps `returnTo` -/

/-- The effects of `handleHydraAccount` extend the trace and contain no
redirect. -/
theorem handleHydraAccount_no_redirect (penv : ProcessEnv) (env : Env)
    (email username discordId : String) (s : St) :
    ∃ evs, (handleHydraAccount penv env email username discordId s).2.trace = s.trace ++ evs
      ∧ ∀ ev ∈ evs, ev.isRedirect = false := by
  have hr := handleHydraAccount_run penv env email username discordId s
  generalize handleHydraAccount penv env email username discordId s = out at hr
  cases hr with
  | readFail m hget => exact ⟨_, rfl, by simp [Event.isRedirect]⟩
  | fast hget ht => exact ⟨_, rfl, by simp [Event.isRedirect]⟩
  | rejected msg resp hget ht hpost hst =>
    exact ⟨_, rfl, by simp [missEvents, Event.isRedirect]⟩
  | conflictNoBody msg hget ht hpost =>
    exact ⟨_, rfl, by simp [missEvents, Event.isRedirect]⟩
  | conflictWriteFail msg e m hget ht hpost hset =>
    exact ⟨_, List.append_assoc _ _ _, by simp [missEvents, Event.isRedirect]⟩
  | conflict msg e hget ht hpost hset =>
    exact ⟨_, List.append_assoc _ _ _, by simp [missEvents, Event.isRedirect]⟩
  | resolvedNoBody hget ht hpost =>
    exact ⟨_, rfl, by simp [missEvents, Event.isRedirect]⟩
  | indexWriteFail newId m hget ht hpost hset1 =>
    exact ⟨_, List.append_assoc _ _ _, by simp [missEvents, Event.isRedirect]⟩
  | recordWriteFail newId m hget ht hpost hset1 hset2 =>
    exact ⟨_, List.append_assoc _ _ _, by simp [missEvents, Event.isRedirect]⟩
  | created newId hget ht hpost hset1 hset2 =>
    exact ⟨_, List.append_assoc _ _ _, by simp [missEvents, Event.isRedirect]⟩

/-- C7 (as stated, refuted): (a) for the query value `returnTo=` (the empty
string) the login handler stores `/dashboard`, not the value, and a successful
callback on that session redirects to `/dashboard`; (b) for the query value
`/login?error=account_setup_failed` the login handler stores it, and after a
failed reconciliation the redirect goes to that very value, so the redirect
on failure is not "never r". -/
theorem C7_counterexample_empty_returnTo :
    (loginDiscord { user := none, queryReturnTo := some "", session := { returnTo := none } }
        emptySt).1
      = .ok { user := none, queryReturnTo := some "", session := { returnTo := some "/dashboard" } }
    ∧ (some "/dashboard" : Option String) ≠ some ""
    ∧ (callbackDiscord sampleConfig (okEnv (.resolved (.obj (.str "42"))))
        { user := some { id := "1001", username := "alice", email := some "a@x.com",
                         avatar := none },
          queryReturnTo := none, session := { returnTo := some "/dashboard" } }
        emptySt).2.trace.getLast? = some (.redirect "/dashboard")
    ∧ (loginDiscord { user := none, queryReturnTo := some "/login?error=account_setup_failed",
                      session := { returnTo := none } } emptySt).1
      = .ok { user := none, queryReturnTo := some "/login?error=account_setup_failed",
              session := { returnTo := some "/login?error=account_setup_failed" } }
    ∧ (handleHydraAccount sampleConfig (readFailEnv (.resolved (.obj (.str "42"))))
        "a@x.com" "alice" "1001" emptySt).1 = .error (.store "read failed")
    ∧ (callbackDiscord sampleConfig (readFailEnv (.resolved (.obj (.str "42"))))
        { user := some { id := "1001", username := "alice", email := some "a@x.com",
                         avatar := none },
          queryReturnTo := none,
          session := { returnTo := some "/login?error=account_setup_failed" } }
        emptySt).2.trace.getLast? = some (.redirect "/login?error=account_setup_failed") := by
  decide

/-- C7 (amended): for every non-empty `returnTo` query value `r`, and for
`r = /dashboard` when the parameter is omitted or empty, the login handler
stores `r` in `session.returnTo` (and hands over to the Discord strategy). A
later callback on that session for a user with a non-empty email: after a
successful reconciliation it ends with the redirect to exactly `r`, its only
redirect; after a failed one it logs the error and ends with the redirect to
`/login?error=account_setup_failed`, its only redirect, so it never redirects
to `r` unless `r` is that very URL. -/
theorem C7_returnTo_preserved (penv : ProcessEnv) (env : Env) (req : Request) (s : St)
    (r : String)
    (hq : (req.queryReturnTo = some r ∧ r ≠ "")
      ∨ ((req.queryReturnTo = none ∨ req.queryReturnTo = some "") ∧ r = "/dashboard")) :
    ∃ req1 : Request,
      loginDiscord req s
        = (.ok req1, { store := s.store, trace := s.trace ++ [.authenticate "discord"] })
      ∧ req1.session.returnTo = some r
      ∧ ∀ (user : User) (email : String) (s2 : St), user.email = some email → email ≠ "" →
          (∀ id, (handleHydraAccount penv env email user.username user.id s2).1 = .ok id →
            callbackDiscord penv env { req1 with user := some user } s2
              = (.ok (),
                  { store := (handleHydraAccount penv env email user.username user.id s2).2.store
                    trace := (handleHydraAccount penv env email user.username user.id s2).2.trace
                      ++ [.redirect r] })
            ∧ (∀ ev ∈ (callbackDiscord penv env { req1 with user := some user } s2).2.trace.drop
                  s2.trace.length,
                ev.isRedirect = true → ev = .redirect r))
          ∧ (∀ err, (handleHydraAccount penv env email user.username user.id s2).1 = .error err →
            callbackDiscord penv env { req1 with user := some user } s2
              = (.ok (),
                  { store := (handleHydraAccount penv env email user.username user.id s2).2.store
                    trace := (handleHydraAccount penv env email user.username user.id s2).2.trace
                      ++ [.logError "Auth callback failed" err,
                          .redirect "/login?error=account_setup_failed"] })
            ∧ (∀ ev ∈ (callbackDiscord penv env { req1 with user := some user } s2).2.trace.drop
                  s2.trace.length,
                ev.isRedirect = true → ev = .redirect "/login?error=account_setup_failed")
            ∧ (r ≠ "/login?error=account_setup_failed" →
                Event.redirect r ∉
                  (callbackDiscord penv env { req1 with user := some user } s2).2.trace.drop
                    s2.trace.length)) := by
  have hr : orDefault req.queryReturnTo "/dashboard" = r := by
    rcases hq with ⟨h1, h2⟩ | ⟨h1 | h1, h2⟩
    · simp [orDefault, h1, h2]
    · simp [orDefault, h1, h2]
    · simp [orDefault, h1, h2]
  have hne : r ≠ "" := by
    rcases hq with ⟨_, h2⟩ | ⟨_, h2⟩
    · exact h2
    · rw [h2]; decide
  refine ⟨{ req with session := { returnTo := some r } }, ?_, rfl, ?_⟩
  · simp [loginDiscord, bind_run, pure_run, emit, hr]
  · intro user email s2 he hem
    obtain ⟨evs, htr, hnored⟩ :=
      handleHydraAccount_no_redirect penv env email user.username user.id s2
    constructor
    · intro id hid
      have hcb : callbackDiscord penv env
          { user := some user, queryReturnTo := req.queryReturnTo,
            session := { returnTo := some r } } s2
          = (.ok (),
              { store := (handleHydraAccount penv env email user.username user.id s2).2.store
                trace := (handleHydraAccount penv env email user.username user.id s2).2.trace
                  ++ [.redirect r] }) := by
        rcases hh : handleHydraAccount penv env email user.username user.id s2 with ⟨res, s3⟩
        rw [hh] at hid
        simp only at hid
        subst hid
        simp [callbackDiscord, tryCatchJs, bind_run, pure_run, emit, he, hem, hh, orDefault, hne]
      refine ⟨hcb, ?_⟩
      intro ev hev hred
      rw [hcb] at hev
      simp only [htr, List.append_assoc, List.drop_left] at hev
      rcases List.mem_append.mp hev with h | h
      · rw [hnored ev h] at hred
        exact absurd hred (by decide)
      · simpa using h
    · intro err herr
      have hcb : callbackDiscord penv env
          { user := some user, queryReturnTo := req.queryReturnTo,
            session := { returnTo := some r } } s2
          = (.ok (),
              { store := (handleHydraAccount penv env email user.username user.id s2).2.store
                trace := (handleHydraAccount penv env email user.username user.id s2).2.trace
                  ++ [.logError "Auth callback failed" err,
                      .redirect "/login?error=account_setup_failed"] }) := by
        rcases hh : handleHydraAccount penv env email user.username user.id s2 with ⟨res, s3⟩
        rw [hh] at herr
        simp only at herr
        subst herr
        simp [callbackDiscord, tryCatchJs, bind_run, pure_run, emit, he, hem, hh]
      have honly : ∀ ev ∈ (callbackDiscord penv env
          { user := some user, queryReturnTo := req.queryReturnTo,
            session := { returnTo := some r } } s2).2.trace.drop s2.trace.length,
          ev.isRedirect = true → ev = .redirect "/login?error=account_setup_failed" := by
        intro ev hev hred
        rw [hcb] at hev
        simp only [htr, List.append_assoc, List.drop_left] at hev
        rcases List.mem_append.mp hev with h | h
        · rw [hnored ev h] at hred
          exact absurd hred (by decide)
        · rcases List.mem_cons.mp h with h1 | h1
          · rw [h1] at hred
            simp [Event.isRedirect] at hred
          · simpa using h1
      refine ⟨hcb, honly, ?_⟩
      intro hrne hmem
      have := honly _ hmem rfl
      exact hrne (Event.redirect.inj this)

/-- C7 (amended), at the example of the specification: `returnTo=/billing`
ends at `/billing`. -/
theorem C7_returnTo_preserved_witness :
    ∃ req1 : Request,
      loginDiscord { user := none, queryReturnTo := some "/billing",
                     session := { returnTo := none } } emptySt
        = (.ok req1, { store := emptySt.store,
                       trace := emptySt.trace ++ [.authenticate "discord"] })
      ∧ req1.session.returnTo = some "/billing"
      ∧ (callbackDiscord sampleConfig (okEnv (.resolved (.obj (.str "42"))))
          { req1 with user := some { id := "1001", username := "alice",
                                     email := some "a@x.com", avatar := none } }
          emptySt).2.trace.getLast? = some (.redirect "/billing") := by
  obtain ⟨req1, h1, h2, h3⟩ :=
    C7_returnTo_preserved sampleConfig (okEnv (.resolved (.obj (.str "42"))))
      { user := none, queryReturnTo := some "/billing", session := { returnTo := none } }
      emptySt "/billing" (.inl ⟨rfl, by decide⟩)
  refine ⟨req1, h1, h2, ?_⟩
  rw [((h3 { id := "1001", username := "alice", email := some "a@x.com", avatar := none }
    "a@x.com" emptySt rfl (by decide)).1 (.str "42") (by decide)).1]
  simp

/-! ## C8: session mapping -/

/-- C8: `serializeUser` completes with `done(null, user.id)`; `deserializeUser`
reads `user-<id>` once and completes with `done(null, record)` when the read
yields a record (any truthy value), with `done(null, null)` when it yields
nothing (`undefined`, or any falsy value), and with `done(err, null)` for the
store error `err` when the read is rejected; it always calls `done` exactly
once, and the call carries an error exactly when the read is rejected. -/
theorem C8_session_mapping (env : Env) (user : User) (id : String) (s : St) :
    serializeUser user s
      = (.ok (), { store := s.store, trace := s.trace ++ [.done none (.str user.id)] })
    ∧ (∀ a b c d, env.dbGetFail (userKey id) = none →
        s.store (userKey id) = .userRecord a b c d →
        deserializeUser env id s
          = (.ok (), { store := s.store
                       trace := s.trace ++ [.dbGet (userKey id),
                         .done none (.userRecord a b c d)] }))
    ∧ (env.dbGetFail (userKey id) = none → (s.store (userKey id)).truthy = true →
        deserializeUser env id s
          = (.ok (), { store := s.store
                       trace := s.trace ++ [.dbGet (userKey id),
                         .done none (s.store (userKey id))] }))
    ∧ (env.dbGetFail (userKey id) = none → (s.store (userKey id)).truthy = false →
        deserializeUser env id s
          = (.ok (), { store := s.store
                       trace := s.trace ++ [.dbGet (userKey id), .done none .null] }))
    ∧ (∀ m, env.dbGetFail (userKey id) = some m →
        deserializeUser env id s
          = (.ok (), { store := s.store
                       trace := s.trace ++ [.dbGet (userKey id),
                         .done (some (.store m)) .null] }))
    ∧ (∃ oerr v,
        deserializeUser env id s
          = (.ok (), { store := s.store
                       trace := s.trace ++ [.dbGet (userKey id), .done oerr v] })
        ∧ (oerr.isSome = true ↔ (env.dbGetFail (userKey id)).isSome = true)) := by
  refine ⟨rfl, ?_, ?_, ?_, ?_, ?_⟩
  · intro a b c d hget hrec
    simp [deserializeUser, tryCatchJs, bind_run, pure_run, emit, dbGet, hget, hrec, orNull,
      JsVal.truthy]
  · intro hget ht
    simp [deserializeUser, tryCatchJs, bind_run, pure_run, emit, dbGet, hget, orNull, ht]
  · intro hget ht
    simp [deserializeUser, tryCatchJs, bind_run, pure_run, emit, dbGet, hget, orNull, ht]
  · intro m hget
    simp [deserializeUser, tryCatchJs, bind_run, pure_run, emit, dbGet, hget]
  · rcases hget : env.dbGetFail (userKey id) with _ | m
    · refine ⟨none, orNull (s.store (userKey id)), ?_, by simp⟩
      simp [deserializeUser, tryCatchJs, bind_run, pure_run, emit, dbGet, hget]
    · refine ⟨some (.store m), .null, ?_, by simp⟩
      simp [deserializeUser, tryCatchJs, bind_run, pure_run, emit, dbGet, hget]

/-- C8, at concrete inputs: a stored record is handed back, and a rejected
read is reported as the error. -/
theorem C8_session_mapping_witness :
    deserializeUser (okEnv (.rejected "unused" none)) "1001"
        (singleSt (userKey "1001") (.userRecord "1001" "a@x.com" "alice" (.str "42")))
      = (.ok (), { store := (singleSt (userKey "1001")
                      (.userRecord "1001" "a@x.com" "alice" (.str "42"))).store
                   trace := [] ++ [.dbGet (userKey "1001"),
                     .done none (.userRecord "1001" "a@x.com" "alice" (.str "42"))] })
    ∧ deserializeUser (okEnv (.rejected "unused" none)) "1001" emptySt
      = (.ok (), { store := emptySt.store
                   trace := emptySt.trace ++ [.dbGet (userKey "1001"), .done none .null] })
    ∧ deserializeUser (readFailEnv (.rejected "unused" none)) "1001" emptySt
      = (.ok (), { store := emptySt.store
                   trace := emptySt.trace ++ [.dbGet (userKey "1001"),
                     .done (some (.store "read failed")) .null] }) :=
  ⟨(C8_session_mapping (okEnv (.rejected "unused" none))
      { id := "1001", username := "alice", email := none, avatar := none } "1001"
      (singleSt (userKey "1001") (.userRecord "1001" "a@x.com" "alice" (.str "42")))).2.1
      "1001" "a@x.com" "alice" (.str "42") rfl (by decide),
   (C8_session_mapping (okEnv (.rejected "unused" none))
      { id := "1001", username := "alice", email := none, avatar := none } "1001"
      emptySt).2.2.2.1 rfl (by decide),
   (C8_session_mapping (readFailEnv (.rejected "unused" none))
      { id := "1001", username := "alice", email := none, avatar := none } "1001"
      emptySt).2.2.2.2.1 "read failed" rfl⟩

/-! ## C9: logout -/

/-- C9 (as stated, refuted): with a session store that only starts the removal
inside `req.session.destroy()`, the redirect to `/` is sent while the
destruction is still pending: in the run the redirect comes before the
completion. -/
theorem C9_counterexample_redirect_before_destroyed :
    (logoutRun .deferred
        { user := some { id := "1001", username := "alice", email := some "a@x.com",
                         avatar := none },
          queryReturnTo := none, session := { returnTo := some "/billing" } }
        emptySt).2.trace
      = [.logoutCleared, .destroyCalled, .redirect "/", .destroyCompleted]
    ∧ List.indexOf (Event.redirect "/")
        [Event.logoutCleared, .destroyCalled, .redirect "/", .destroyCompleted]
      < List.indexOf Event.destroyCompleted
        [Event.logoutCleared, .destroyCalled, .redirect "/", .destroyCompleted] := by
  decide

/-- C9 (amended): in every execution of the `/logout` handler, whatever the
request (authenticated or not), exactly one redirect, to `/`, is sent, after
the authentication has been cleared and after `req.session.destroy()` has been
called; with a session store that removes the session inside that call the
destruction is complete before the redirect. The request is left without user
and without session data. -/
theorem C9_logout_order (req : Request) (s : St) :
    logoutHandler .immediate req s
      = (.ok { user := none, queryReturnTo := req.queryReturnTo,
               session := { returnTo := none } },
          { store := s.store
            trace := s.trace ++ [.logoutCleared, .destroyCalled, .destroyCompleted,
              .redirect "/"] })
    ∧ logoutHandler .deferred req s
      = (.ok { user := none, queryReturnTo := req.queryReturnTo,
               session := { returnTo := none } },
          { store := s.store
            trace := s.trace ++ [.logoutCleared, .destroyCalled, .redirect "/"] }) := by
  constructor
  · simp [logoutHandler, sessionDestroy, bind_run, pure_run, emit]
  · simp [logoutHandler, sessionDestroy, bind_run, pure_run, emit]

/-! ## C10: the generated credential -/

/-- C10 (as stated, refuted): with `PASSWORD_LENGTH=0` the configured value
parses to `0`, yet the generator is asked for length 12; with
`PASSWORD_LENGTH=abc` the value parses to `NaN` and the generator is asked
for length 12. -/
theorem C10_counterexample_zero_length :
    parseInt "0" = some 0
    ∧ (handleHydraAccount { PANEL_URL := none, PANEL_KEY := none, PASSWORD_LENGTH := some "0" }
        (okEnv (.resolved (.obj (.str "42")))) "a@x.com" "alice" "1001" emptySt).2.trace.take 2
      = [.dbGet (idKey "a@x.com"), .generate 12 "alphanumeric"]
    ∧ parseInt "abc" = none
    ∧ (handleHydraAccount { PANEL_URL := none, PANEL_KEY := none, PASSWORD_LENGTH := some "abc" }
        (okEnv (.resolved (.obj (.str "42")))) "a@x.com" "alice" "1001" emptySt).2.trace.take 2
      = [.dbGet (idKey "a@x.com"), .generate 12 "alphanumeric"] := by
  decide

/-- C10 (amended): on every index miss (the read succeeds with a falsy value)
the run starts with the read, one call of the generator with charset
`alphanumeric` and length `parseInt(PASSWORD_LENGTH) || 12`, and the
create-account request whose password is what the generator returned. That
length is `parseInt(PASSWORD_LENGTH)` when this is a number other than 0, and
12 when `PASSWORD_LENGTH` is not configured or parses to `NaN` or to 0. -/
theorem C10_credential_request (penv : ProcessEnv) (env : Env)
    (email username discordId : String) (s : St)
    (hget : env.dbGetFail (idKey email) = none)
    (hmiss : (s.store (idKey email)).truthy = false) :
    (∃ rest, (handleHydraAccount penv env email username discordId s).2.trace
        = s.trace ++ [.dbGet (idKey email),
            .generate (passwordLength penv) "alphanumeric",
            .post (createRequest penv env email username discordId)] ++ rest)
    ∧ (createRequest penv env email username discordId).password
        = env.generate (passwordLength penv) "alphanumeric"
    ∧ (∀ n, parseInt (envToString penv.PASSWORD_LENGTH) = some n → n ≠ 0 →
        passwordLength penv = n)
    ∧ (parseInt (envToString penv.PASSWORD_LENGTH) = some 0 → passwordLength penv = 12)
    ∧ (parseInt (envToString penv.PASSWORD_LENGTH) = none → passwordLength penv = 12)
    ∧ (penv.PASSWORD_LENGTH = none → passwordLength penv = 12) := by
  refine ⟨?_, rfl, ?_, ?_, ?_, ?_⟩
  · have hr := handleHydraAccount_run penv env email username discordId s
    generalize handleHydraAccount penv env email username discordId s = out at hr
    cases hr with
    | readFail m hget1 => simp [hget] at hget1
    | fast hget1 ht => simp [hmiss] at ht
    | rejected msg resp hget1 ht hpost hst => exact ⟨[], by simp [missEvents]⟩
    | conflictNoBody msg hget1 ht hpost => exact ⟨[], by simp [missEvents]⟩
    | conflictWriteFail msg e m hget1 ht hpost hset => exact ⟨_, rfl⟩
    | conflict msg e hget1 ht hpost hset => exact ⟨_, rfl⟩
    | resolvedNoBody hget1 ht hpost => exact ⟨[], by simp [missEvents]⟩
    | indexWriteFail newId m hget1 ht hpost hset1 => exact ⟨_, rfl⟩
    | recordWriteFail newId m hget1 ht hpost hset1 hset2 => exact ⟨_, rfl⟩
    | created newId hget1 ht hpost hset1 hset2 => exact ⟨_, rfl⟩
  · intro n hn hn0
    simp [passwordLength, hn, hn0]
  · intro hn
    simp [passwordLength, hn]
  · intro hn
    simp [passwordLength, hn]
  · intro hn
    have : parseInt (envToString penv.PASSWORD_LENGTH) = none := by rw [hn]; decide
    simp [passwordLength, this]

/-- C10 (amended), at a concrete input: `PASSWORD_LENGTH=16`. -/
theorem C10_credential_request_witness :
    (∃ rest, (handleHydraAccount
          { PANEL_URL := none, PANEL_KEY := none, PASSWORD_LENGTH := some "16" }
          (okEnv (.resolved (.obj (.str "42")))) "a@x.com" "alice" "1001" emptySt).2.trace
        = emptySt.trace ++ [.dbGet (idKey "a@x.com"),
            .generate (passwordLength
              { PANEL_URL := none, PANEL_KEY := none, PASSWORD_LENGTH := some "16" })
              "alphanumeric",
            .post (createRequest
              { PANEL_URL := none, PANEL_KEY := none, PASSWORD_LENGTH := some "16" }
              (okEnv (.resolved (.obj (.str "42")))) "a@x.com" "alice" "1001")] ++ rest)
    ∧ passwordLength { PANEL_URL := none, PANEL_KEY := none, PASSWORD_LENGTH := some "16" }
        = 16 :=
  ⟨(C10_credential_request
      { PANEL_URL := none, PANEL_KEY := none, PASSWORD_LENGTH := some "16" }
      (okEnv (.resolved (.obj (.str "42")))) "a@x.com" "alice" "1001" emptySt rfl
      (by decide)).1,
   (C10_credential_request
      { PANEL_URL := none, PANEL_KEY := none, PASSWORD_LENGTH := some "16" }
      (okEnv (.resolved (.obj (.str "42")))) "a@x.com" "alice" "1001" emptySt rfl
      (by decide)).2.2.1 16 (by decide) (by decide)⟩

end GfxDash
